import Mathlib

/-!
Shallow embedding of the context persistence and summarization workflow of
the ai-context-bridge backend (src/backend/app: schemas.py, models.py,
services/context_service.py, services/openai_service.py,
api/routes/contexts.py).

Modelling conventions:
- datetime values are integers in abstract time units (one day is 86400
  units); each call to datetime.utcnow() is modelled as reading a clock
  function at the next tick, one tick per call, because every SQLAlchemy
  column default makes its own utcnow() call;
- generate_uuid() is modelled as drawing from a fresh-id counter;
- the database is modelled as in-memory lists with every storage operation
  succeeding (the spec treats storage faults as a separate StorageError
  channel that no claim here concerns);
- the OpenAI provider is modelled as an environment field: some r means the
  chat-completion call returns r, none means generate_summary raises (either
  because no API key is configured or because the upstream call failed).
-/

namespace AIContextBridge

/-- Abstract length of one day in the embedding's time units
(timedelta with days equal to d becomes d * secondsPerDay). -/
def secondsPerDay : Int := 86400

/-- Settings.DEFAULT_RETENTION_DAYS from config.py. -/
def DEFAULT_RETENTION_DAYS : Nat := 30

/-- The retention period added to the clock reading when the expires_at
column default runs (models.py, Context.expires_at). -/
def retentionDelta : Int := (DEFAULT_RETENTION_DAYS : Int) * secondsPerDay

/-- schemas.MessageCreate: one submitted message. -/
structure MessageCreate where
  role : String
  content : String
  timestamp : Int
deriving DecidableEq

/-- schemas.ContextCreate: the creation request body. source_metadata is an
opaque client blob, modelled as an optional string. -/
structure ContextCreate where
  platform : String
  messages : List MessageCreate
  formatted : String
  summary : Option String
  generate_ai_summary : Bool
  source_metadata : Option String
deriving DecidableEq

/-- The platform pattern of schemas.ContextCreate.platform. -/
def platformPatternOk (p : String) : Bool :=
  p = "chatgpt" || p = "claude" || p = "gemini" || p = "poe"

/-- Field constraints of schemas.MessageCreate (role pattern, content length
between 1 and 100000). -/
def messageCreateValid (m : MessageCreate) : Bool :=
  (m.role = "user" || m.role = "assistant")
    && decide (1 ≤ m.content.length) && decide (m.content.length ≤ 100000)

/-- schemas.ContextCreate.validate_messages: the explicit field validator on
messages. -/
def validate_messages (v : List MessageCreate) : Except String (List MessageCreate) :=
  if v.length > 500 then Except.error "Maximum 500 messages per context"
  else if v.length = 0 then Except.error "At least one message is required"
  else Except.ok v

/-- The whole boundary validation of schemas.ContextCreate: platform
pattern, messages list length between 1 and 500 (Field min_length and
max_length), per-message constraints, formatted min_length 1, and the
validate_messages field validator. -/
def contextCreateValid (c : ContextCreate) : Bool :=
  platformPatternOk c.platform
    && decide (1 ≤ c.messages.length) && decide (c.messages.length ≤ 500)
    && c.messages.all messageCreateValid
    && decide (1 ≤ c.formatted.length)
    && (validate_messages c.messages).isOk

/-- The JSON record stored in Context.ai_summary_metadata on AI-summary
success (context_service.create_context). -/
structure SummaryMetadataRec where
  tokens_used : Nat
  model : String
  generated_at : Int
deriving DecidableEq

/-- models.Context: one row of the contexts table. -/
structure StoredContext where
  id : Nat
  platform : String
  message_count : Nat
  formatted_text : String
  summary : Option String
  ai_summary_metadata : Option SummaryMetadataRec
  created_at : Int
  updated_at : Int
  expires_at : Int
  source_metadata : Option String
deriving DecidableEq

/-- models.Message: one row of the messages table. -/
structure StoredMessage where
  id : Nat
  context_id : Nat
  role : String
  content : String
  message_timestamp : Int
  sequence_order : Nat
  created_at : Int
deriving DecidableEq

/-- The database: the contexts and messages tables. -/
structure Store where
  contexts : List StoredContext
  messages : List StoredMessage
deriving DecidableEq

/-- A successful result of openai_service.generate_summary. -/
structure ProviderOk where
  summary : String
  tokens_used : Nat
  model : String
deriving DecidableEq

/-- The ambient environment of a request: the utcnow clock (indexed by call
tick) and the provider outcome (none models generate_summary raising, i.e.
no API key configured or any upstream OpenAI failure). -/
structure Env where
  clock : Nat → Int
  provider : Option ProviderOk

/-- Mutable system state threaded through operations: the database, the next
clock tick, and the next fresh identifier. -/
structure SysState where
  store : Store
  tick : Nat
  nextId : Nat

/-- The fallback summary string synthesized in create_context when AI
summarization fails and no truthy client summary exists. -/
def fallbackSummary (n : Nat) : String :=
  "Conversation with " ++ toString n ++ " messages"

/-- Python truthiness test on the optional summary string: None and the
empty string are falsy (the code checks with a plain if not summary). -/
def pyFalsy : Option String → Bool
  | none => true
  | some s => s = ""

/-- The summary-metadata and summary values after step one of
context_service.create_context (the generate_ai_summary branch with its
try-except fallback). On provider success generated_at reads the clock. -/
def aiSummaryResult (env : Env) (st : SysState) (cd : ContextCreate) :
    Option SummaryMetadataRec × Option String :=
  if cd.generate_ai_summary then
    match env.provider with
    | some r =>
        (some { tokens_used := r.tokens_used, model := r.model,
                generated_at := env.clock st.tick },
         some r.summary)
    | none =>
        (none,
         if pyFalsy cd.summary then some (fallbackSummary cd.messages.length)
         else cd.summary)
  else (none, cd.summary)

/-- Number of clock ticks consumed by the AI-summary step (one utcnow call
happens in the success branch only; the except branch calls none). -/
def aiTicksUsed (env : Env) (cd : ContextCreate) : Nat :=
  if cd.generate_ai_summary then
    match env.provider with
    | some _ => 1
    | none => 0
  else 0

/-- Number of calls made to generate_summary during create_context: exactly
one when generate_ai_summary is set (whether it succeeds or raises), zero
otherwise. -/
def providerCallCount (cd : ContextCreate) : Nat :=
  if cd.generate_ai_summary then 1 else 0

/-- The Message rows created by the enumerate loop of create_context:
sequence_order is the zero-based input index; each row draws a fresh id and
its created_at default reads the clock at its own tick. -/
def mkStoredMessages (env : Env) (cid : Nat) :
    Nat → Nat → Nat → List MessageCreate → List StoredMessage
  | _, _, _, [] => []
  | idStart, tickStart, seq, m :: rest =>
      { id := idStart, context_id := cid, role := m.role, content := m.content,
        message_timestamp := m.timestamp, sequence_order := seq,
        created_at := env.clock tickStart }
        :: mkStoredMessages env cid (idStart + 1) (tickStart + 1) (seq + 1) rest

/-- Result of context_service.create_context: the new system state, the
persisted Context row, its Message rows, and how many provider calls were
made. -/
structure CreateOutcome where
  state : SysState
  ctx : StoredContext
  msgs : List StoredMessage
  providerCalls : Nat

/-- context_service.create_context. The column defaults of the Context row
(created_at, updated_at, expires_at, in declaration order of models.py) each
read the clock at their own tick; expires_at adds the retention period to
its own fresh reading. The function performs no validation of the input and
always persists. -/
def create_context (env : Env) (st : SysState) (context_data : ContextCreate) :
    CreateOutcome :=
  let n := context_data.messages.length
  let tick1 := st.tick + aiTicksUsed env context_data
  let ctx : StoredContext :=
    { id := st.nextId, platform := context_data.platform, message_count := n,
      formatted_text := context_data.formatted,
      summary := (aiSummaryResult env st context_data).2,
      ai_summary_metadata := (aiSummaryResult env st context_data).1,
      created_at := env.clock tick1,
      updated_at := env.clock (tick1 + 1),
      expires_at := env.clock (tick1 + 2) + retentionDelta,
      source_metadata := context_data.source_metadata }
  let msgs := mkStoredMessages env st.nextId (st.nextId + 1) (tick1 + 3) 0
    context_data.messages
  { state :=
      { store := { contexts := st.store.contexts ++ [ctx],
                   messages := st.store.messages ++ msgs },
        tick := tick1 + 3 + n,
        nextId := st.nextId + 1 + n },
    ctx := ctx, msgs := msgs,
    providerCalls := providerCallCount context_data }

/-- Comparison key used when get_context sorts the loaded messages. -/
def seqOrderLe (a b : StoredMessage) : Prop :=
  a.sequence_order ≤ b.sequence_order

instance : DecidableRel seqOrderLe :=
  fun a b => inferInstanceAs (Decidable (a.sequence_order ≤ b.sequence_order))

/-- The in-place stable sort by sequence_order performed by get_context. -/
def sortBySeq (l : List StoredMessage) : List StoredMessage :=
  List.insertionSort seqOrderLe l

/-- context_service.get_context: load the context row by id together with
its messages, sorted ascending by sequence_order; none when absent. -/
def get_context (store : Store) (cid : Nat) :
    Option (StoredContext × List StoredMessage) :=
  match store.contexts.find? (fun c => c.id == cid) with
  | none => none
  | some c =>
      some (c, sortBySeq (store.messages.filter (fun m => m.context_id == cid)))

/-- The rows matching the optional platform filter. The code guards with a
plain if platform, so a None filter and an empty-string filter both mean no
filtering. -/
def matchingContexts (store : Store) (platform : Option String) :
    List StoredContext :=
  match platform with
  | some p =>
      if p = "" then store.contexts
      else store.contexts.filter (fun c => c.platform == p)
  | none => store.contexts

/-- Ordering used by the listing query: created_at descending. -/
def createdDesc (a b : StoredContext) : Prop := b.created_at ≤ a.created_at

instance : DecidableRel createdDesc :=
  fun a b => inferInstanceAs (Decidable (b.created_at ≤ a.created_at))

/-- context_service.list_contexts: the page (order by created_at descending,
then OFFSET offset LIMIT limit) and the total count of matching rows
regardless of the pagination window. -/
def list_contexts (store : Store) (platform : Option String)
    (limit offset : Nat) : List StoredContext × Nat :=
  let ordered := List.insertionSort createdDesc (matchingContexts store platform)
  ((ordered.drop offset).take limit, (matchingContexts store platform).length)

/-- The body of the ContextListResponse produced by the listing route. -/
structure ContextListResponse where
  contexts : List StoredContext
  total : Nat
  limit : Nat
  offset : Nat
  has_more : Bool

/-- api.routes.contexts.list_contexts: delegates to the service and computes
has_more as offset + limit < total. -/
def list_contexts_route (store : Store) (platform : Option String)
    (limit offset : Nat) : ContextListResponse :=
  { contexts := (list_contexts store platform limit offset).1,
    total := (list_contexts store platform limit offset).2,
    limit := limit, offset := offset,
    has_more := decide (offset + limit < (list_contexts store platform limit offset).2) }

/-- context_service.delete_context: DELETE FROM contexts WHERE id matches,
with ON DELETE CASCADE removing the context's messages; returns whether the
rowcount was positive. -/
def delete_context (store : Store) (cid : Nat) : Store × Bool :=
  ({ contexts := store.contexts.filter (fun c => !(c.id == cid)),
     messages := store.messages.filter (fun m => !(m.context_id == cid)) },
   decide (0 < store.contexts.countP (fun c => c.id == cid)))

/-- context_service.cleanup_expired_contexts: DELETE FROM contexts WHERE
expires_at is strictly earlier than now, cascading to messages; returns the
rowcount. -/
def cleanup_expired_contexts (store : Store) (now : Int) : Store × Nat :=
  ({ contexts := store.contexts.filter (fun c => !(decide (c.expires_at < now))),
     messages := store.messages.filter (fun m =>
       !((store.contexts.filter (fun c => decide (c.expires_at < now))).any
         (fun c => c.id == m.context_id))) },
   (store.contexts.filter (fun c => decide (c.expires_at < now))).length)

/-- One workflow-level operation, for stating that nothing mutates a stored
context after creation. -/
inductive WorkflowOp where
  | createOp (env : Env) (input : ContextCreate)
  | getOp (cid : Nat)
  | listOp (platform : Option String) (limit offset : Nat)
  | deleteOp (cid : Nat)
  | cleanupOp (now : Int)

/-- Effect of a workflow operation on the system state: get and list read
only; delete and cleanup shrink the tables; create appends. -/
def applyOp (st : SysState) : WorkflowOp → SysState
  | WorkflowOp.createOp env input => (create_context env st input).state
  | WorkflowOp.getOp _ => st
  | WorkflowOp.listOp _ _ _ => st
  | WorkflowOp.deleteOp cid => { st with store := (delete_context st.store cid).1 }
  | WorkflowOp.cleanupOp now =>
      { st with store := (cleanup_expired_contexts st.store now).1 }

/-- A sample user message. -/
def msg0 : MessageCreate := { role := "user", content := "Hello", timestamp := 100 }

/-- A sample assistant message whose timestamp precedes the first message. -/
def msg1 : MessageCreate :=
  { role := "assistant", content := "Hi there", timestamp := 90 }

/-- Environment with a constant clock and a failing provider. -/
def constClockEnvFail : Env := { clock := fun _ => 1000, provider := none }

/-- Environment whose clock advances one unit per utcnow call, with a
failing provider. -/
def tickClockEnvFail : Env := { clock := fun i => (i : Int), provider := none }

/-- A sample successful provider result. -/
def provOk : ProviderOk :=
  { summary := "Greeting exchange", tokens_used := 42,
    model := "gpt-4-turbo-preview" }

/-- Environment with a constant clock and a working provider. -/
def constClockEnvOk : Env := { clock := fun _ => 1000, provider := some provOk }

/-- The empty initial system state. -/
def st0 : SysState :=
  { store := { contexts := [], messages := [] }, tick := 0, nextId := 0 }

/-- A valid creation input with a client summary and no AI request. -/
def inputPlain : ContextCreate :=
  { platform := "chatgpt", messages := [msg0, msg1],
    formatted := "**USER**: Hello", summary := some "client summary",
    generate_ai_summary := false, source_metadata := none }

/-- A creation input with an empty messages list. -/
def inputEmptyMessages : ContextCreate :=
  { platform := "chatgpt", messages := [], formatted := "x",
    summary := none, generate_ai_summary := false, source_metadata := none }

/-- A creation input requesting an AI summary whose client summary is the
empty string. -/
def inputEmptySummaryAI : ContextCreate :=
  { platform := "claude", messages := [msg0, msg1], formatted := "x",
    summary := some "", generate_ai_summary := true, source_metadata := none }

/-- A creation input requesting an AI summary with a non-empty client
summary. -/
def inputAI : ContextCreate :=
  { platform := "claude", messages := [msg0, msg1], formatted := "x",
    summary := some "client summary", generate_ai_summary := true,
    source_metadata := none }

/-- A stored context that expires at time 10. -/
def ctxA : StoredContext :=
  { id := 1, platform := "chatgpt", message_count := 1, formatted_text := "a",
    summary := none, ai_summary_metadata := none, created_at := 0,
    updated_at := 0, expires_at := 10, source_metadata := none }

/-- A stored context that expires at time 100. -/
def ctxB : StoredContext :=
  { id := 2, platform := "claude", message_count := 1, formatted_text := "b",
    summary := some "s", ai_summary_metadata := none, created_at := 1,
    updated_at := 1, expires_at := 100, source_metadata := none }

/-- A store holding the two sample contexts. -/
def storeAB : Store := { contexts := [ctxA, ctxB], messages := [] }

/-- A stored message belonging to the context that expires at time 10. -/
def msgA : StoredMessage :=
  { id := 10, context_id := 1, role := "user", content := "hi",
    message_timestamp := 5, sequence_order := 0, created_at := 0 }

/-- A stored message belonging to the context that expires at time 100. -/
def msgB : StoredMessage :=
  { id := 11, context_id := 2, role := "user", content := "yo",
    message_timestamp := 6, sequence_order := 0, created_at := 1 }

/-- A store holding the two sample contexts and one message of each. -/
def storeABM : Store := { contexts := [ctxA, ctxB], messages := [msgA, msgB] }

/-! Helper lemmas about the embedded operations. -/

theorem create_state_contexts (env : Env) (st : SysState) (cd : ContextCreate) :
    (create_context env st cd).state.store.contexts
      = st.store.contexts ++ [(create_context env st cd).ctx] := rfl

theorem create_state_messages (env : Env) (st : SysState) (cd : ContextCreate) :
    (create_context env st cd).state.store.messages
      = st.store.messages ++ (create_context env st cd).msgs := rfl

theorem create_ctx_id (env : Env) (st : SysState) (cd : ContextCreate) :
    (create_context env st cd).ctx.id = st.nextId := rfl

theorem create_msgs_def (env : Env) (st : SysState) (cd : ContextCreate) :
    (create_context env st cd).msgs
      = mkStoredMessages env st.nextId (st.nextId + 1)
          (st.tick + aiTicksUsed env cd + 3) 0 cd.messages := rfl

theorem create_ctx_summary (env : Env) (st : SysState) (cd : ContextCreate) :
    (create_context env st cd).ctx.summary = (aiSummaryResult env st cd).2 := rfl

theorem create_ctx_meta (env : Env) (st : SysState) (cd : ContextCreate) :
    (create_context env st cd).ctx.ai_summary_metadata
      = (aiSummaryResult env st cd).1 := rfl

theorem mkStoredMessages_view (env : Env) (cid : Nat) :
    ∀ (msgs : List MessageCreate) (idStart tickStart seq : Nat),
      (mkStoredMessages env cid idStart tickStart seq msgs).map
          (fun m => (m.role, m.content, m.message_timestamp))
        = msgs.map (fun m => (m.role, m.content, m.timestamp))
  | [], _, _, _ => rfl
  | m :: rest, i, t, s => by
      simp only [mkStoredMessages, List.map_cons,
        mkStoredMessages_view env cid rest (i + 1) (t + 1) (s + 1)]

theorem mkStoredMessages_seq (env : Env) (cid : Nat) :
    ∀ (msgs : List MessageCreate) (idStart tickStart seq : Nat),
      (mkStoredMessages env cid idStart tickStart seq msgs).map
          (fun m => m.sequence_order)
        = List.range' seq msgs.length
  | [], _, _, _ => rfl
  | m :: rest, i, t, s => by
      simp only [mkStoredMessages, List.map_cons, List.length_cons,
        List.range'_succ, mkStoredMessages_seq env cid rest (i + 1) (t + 1) (s + 1)]

theorem mkStoredMessages_cid (env : Env) (cid : Nat) :
    ∀ (msgs : List MessageCreate) (idStart tickStart seq : Nat)
      (m : StoredMessage),
      m ∈ mkStoredMessages env cid idStart tickStart seq msgs →
        m.context_id = cid
  | [], _, _, _, _, h => by simp [mkStoredMessages] at h
  | x :: rest, i, t, s, m, h => by
      rcases List.mem_cons.mp h with h1 | h2
      · subst h1; rfl
      · exact mkStoredMessages_cid env cid rest (i + 1) (t + 1) (s + 1) m h2

theorem mkStoredMessages_seq_ge (env : Env) (cid : Nat) :
    ∀ (msgs : List MessageCreate) (idStart tickStart seq : Nat)
      (m : StoredMessage),
      m ∈ mkStoredMessages env cid idStart tickStart seq msgs →
        seq ≤ m.sequence_order
  | [], _, _, _, _, h => by simp [mkStoredMessages] at h
  | x :: rest, i, t, s, m, h => by
      rcases List.mem_cons.mp h with h1 | h2
      · subst h1; exact Nat.le_refl s
      · exact Nat.le_of_succ_le
          (mkStoredMessages_seq_ge env cid rest (i + 1) (t + 1) (s + 1) m h2)

theorem mkStoredMessages_pairwise (env : Env) (cid : Nat) :
    ∀ (msgs : List MessageCreate) (idStart tickStart seq : Nat),
      (mkStoredMessages env cid idStart tickStart seq msgs).Pairwise
        (fun a b => a.sequence_order < b.sequence_order)
  | [], _, _, _ => List.Pairwise.nil
  | x :: rest, i, t, s => by
      refine List.Pairwise.cons ?_
        (mkStoredMessages_pairwise env cid rest (i + 1) (t + 1) (s + 1))
      intro b hb
      exact Nat.lt_of_succ_le
        (mkStoredMessages_seq_ge env cid rest (i + 1) (t + 1) (s + 1) b hb)

theorem sortBySeq_eq_of_pairwise {l : List StoredMessage}
    (h : l.Pairwise fun a b => a.sequence_order < b.sequence_order) :
    sortBySeq l = l :=
  List.Sorted.insertionSort_eq
    (List.Pairwise.imp (fun hab => Nat.le_of_lt hab) h)

theorem find?_append_eq {α : Type} {p : α → Bool} {l₁ l₂ : List α}
    (h : ∀ a ∈ l₁, p a = false) : (l₁ ++ l₂).find? p = l₂.find? p := by
  induction l₁ with
  | nil => rfl
  | cons a t ih =>
      rw [List.cons_append,
        List.find?_cons_of_neg _ (by simp [h a (List.mem_cons_self a t)])]
      exact ih fun b hb => h b (List.mem_cons_of_mem a hb)

theorem filter_length_split {α : Type} (p : α → Bool) (l : List α) :
    (l.filter p).length + (l.filter fun a => !(p a)).length = l.length := by
  induction l with
  | nil => rfl
  | cons a t ih => cases hpa : p a <;> simp [List.filter_cons, hpa] <;> omega

theorem create_ctx_created_at (env : Env) (st : SysState) (cd : ContextCreate) :
    (create_context env st cd).ctx.created_at
      = env.clock (st.tick + aiTicksUsed env cd) := rfl

theorem create_ctx_expires_at (env : Env) (st : SysState) (cd : ContextCreate) :
    (create_context env st cd).ctx.expires_at
      = env.clock (st.tick + aiTicksUsed env cd + 2) + retentionDelta := rfl

/-! Claim theorems. -/

/-- C5: for every creation input with generate_ai_summary false, the
persisted summary equals the client-supplied summary exactly, including an
absent summary, and no provider call is made. -/
theorem client_summary_preserved (env : Env) (st : SysState)
    (input : ContextCreate) (hgen : input.generate_ai_summary = false) :
    (create_context env st input).ctx.summary = input.summary
      ∧ (create_context env st input).providerCalls = 0 := by
  constructor
  · rw [create_ctx_summary]
    simp [aiSummaryResult, hgen]
  · simp [create_context, providerCallCount, hgen]

/-- Witness for C5 at a concrete input with a client summary. -/
theorem client_summary_preserved_witness :
    (create_context constClockEnvFail st0 inputPlain).ctx.summary
        = inputPlain.summary
      ∧ (create_context constClockEnvFail st0 inputPlain).providerCalls = 0 :=
  client_summary_preserved constClockEnvFail st0 inputPlain rfl

/-- C10: when generate_ai_summary is set, the provider fails, and the
client supplied the empty string as summary, the persisted summary is the
synthesized fallback string, because the fallback test treats any falsy
summary (None or the empty string) as absent. -/
theorem empty_client_summary_gets_fallback (env : Env) (st : SysState)
    (input : ContextCreate) (hgen : input.generate_ai_summary = true)
    (hp : env.provider = none) (hs : input.summary = some "") :
    (create_context env st input).ctx.summary
      = some (fallbackSummary input.messages.length) := by
  rw [create_ctx_summary]
  simp [aiSummaryResult, hgen, hp, hs, pyFalsy]

/-- Witness for C10 at a concrete empty-string-summary input. -/
theorem empty_client_summary_gets_fallback_witness :
    (create_context constClockEnvFail st0 inputEmptySummaryAI).ctx.summary
      = some (fallbackSummary inputEmptySummaryAI.messages.length) :=
  empty_client_summary_gets_fallback constClockEnvFail st0 inputEmptySummaryAI
    rfl rfl rfl

/-- C4: with generate_ai_summary set and a working provider, the persisted
summary is the provider text and the stored metadata records the provider
token count, and the metadata is present exactly when AI summarization was
requested and succeeded. -/
theorem ai_summary_success_recorded (env : Env) (st : SysState)
    (input : ContextCreate) (r : ProviderOk) (env2 : Env) (st2 : SysState)
    (input2 : ContextCreate) (hgen : input.generate_ai_summary = true)
    (hp : env.provider = some r) :
    (create_context env st input).ctx.summary = some r.summary
      ∧ (create_context env st input).ctx.ai_summary_metadata
          = some { tokens_used := r.tokens_used, model := r.model,
                   generated_at := env.clock st.tick }
      ∧ ((create_context env2 st2 input2).ctx.ai_summary_metadata).isSome
          = (input2.generate_ai_summary && env2.provider.isSome) := by
  refine ⟨?_, ?_, ?_⟩
  · rw [create_ctx_summary]
    simp [aiSummaryResult, hgen, hp]
  · rw [create_ctx_meta]
    simp [aiSummaryResult, hgen, hp]
  · rw [create_ctx_meta]
    cases hg2 : input2.generate_ai_summary <;>
      cases hp2 : env2.provider <;> simp [aiSummaryResult, hg2, hp2]

/-- Witness for C4 at a concrete working-provider input, with the
metadata-presence conjunct checked at a no-AI input as well. -/
theorem ai_summary_success_recorded_witness :
    (create_context constClockEnvOk st0 inputAI).ctx.summary
        = some provOk.summary
      ∧ (create_context constClockEnvOk st0 inputAI).ctx.ai_summary_metadata
          = some { tokens_used := provOk.tokens_used, model := provOk.model,
                   generated_at := constClockEnvOk.clock st0.tick }
      ∧ ((create_context constClockEnvFail st0 inputPlain).ctx.ai_summary_metadata).isSome
          = (inputPlain.generate_ai_summary && constClockEnvFail.provider.isSome) :=
  ai_summary_success_recorded constClockEnvOk st0 inputAI provOk
    constClockEnvFail st0 inputPlain rfl rfl

/-- C2 counterexample: with a failing provider and generate_ai_summary set,
a client-supplied empty-string summary is not persisted; the code persists
the synthesized fallback instead, so the persisted summary is not the
client's supplied summary even though the caller gave one. -/
theorem supplied_summary_not_kept_cex :
    inputEmptySummaryAI.summary = some ""
      ∧ inputEmptySummaryAI.generate_ai_summary = true
      ∧ constClockEnvFail.provider = none
      ∧ (create_context constClockEnvFail st0 inputEmptySummaryAI).ctx.summary
          = some "Conversation with 2 messages"
      ∧ ("Conversation with 2 messages" : String) ≠ "" :=
  ⟨rfl, rfl, rfl, rfl, by decide⟩

/-- C2 amended: with generate_ai_summary set and a failing provider, the
create operation still persists (no error surfaced), summary_metadata is
left absent, and the persisted summary is the client's supplied summary if
the caller gave a non-empty one, otherwise (summary absent or equal to the
empty string) exactly the string Conversation with N messages, where N is
the number of submitted messages. -/
theorem provider_failure_fallback (env : Env) (st : SysState)
    (input : ContextCreate) (hgen : input.generate_ai_summary = true)
    (hp : env.provider = none) :
    (create_context env st input).state.store.contexts.length
        = st.store.contexts.length + 1
      ∧ (create_context env st input).ctx.ai_summary_metadata = none
      ∧ (create_context env st input).ctx.summary
          = match input.summary with
            | some s =>
                if s = "" then some (fallbackSummary input.messages.length)
                else some s
            | none => some (fallbackSummary input.messages.length) := by
  refine ⟨?_, ?_, ?_⟩
  · rw [create_state_contexts]
    simp
  · rw [create_ctx_meta]
    simp [aiSummaryResult, hgen, hp]
  · rw [create_ctx_summary]
    cases hs : input.summary with
    | none => simp [aiSummaryResult, hgen, hp, hs, pyFalsy]
    | some s =>
        by_cases hse : s = "" <;>
          simp [aiSummaryResult, hgen, hp, hs, pyFalsy, hse]

/-- Witness for the amended C2 at a concrete failing-provider input with a
non-empty client summary. -/
theorem provider_failure_fallback_witness :
    (create_context constClockEnvFail st0 inputAI).state.store.contexts.length
        = st0.store.contexts.length + 1
      ∧ (create_context constClockEnvFail st0 inputAI).ctx.ai_summary_metadata
          = none
      ∧ (create_context constClockEnvFail st0 inputAI).ctx.summary
          = match inputAI.summary with
            | some s =>
                if s = "" then some (fallbackSummary inputAI.messages.length)
                else some s
            | none => some (fallbackSummary inputAI.messages.length) :=
  provider_failure_fallback constClockEnvFail st0 inputAI rfl rfl

/-- C1 counterexample: an input with zero messages is not rejected by the
workflow; create_context raises no validation error and persists a context
row with message_count zero for it. -/
theorem no_workflow_bound_check_cex :
    inputEmptyMessages.messages.length = 0
      ∧ (create_context constClockEnvFail st0
          inputEmptyMessages).state.store.contexts.length = 1
      ∧ (create_context constClockEnvFail st0
          inputEmptyMessages).ctx.message_count = 0 :=
  ⟨rfl, rfl, rfl⟩

/-- C1 amended: the message-count bounds are enforced only at the boundary:
the schema validation rejects every input whose messages list is empty or
longer than 500, while the workflow-level create_context performs no
message-count re-check of its own and persists every input handed to it. -/
theorem message_bounds_boundary_only (env : Env) (st : SysState)
    (input : ContextCreate)
    (h : input.messages.length = 0 ∨ 500 < input.messages.length) :
    contextCreateValid input = false
      ∧ (create_context env st input).state.store.contexts.length
          = st.store.contexts.length + 1 := by
  constructor
  · rcases h with h0 | h5
    · simp [contextCreateValid, h0]
    · have hfalse : decide (input.messages.length ≤ 500) = false :=
        decide_eq_false (Nat.not_le.mpr h5)
      simp [contextCreateValid, hfalse]
  · rw [create_state_contexts]
    simp

/-- Witness for the amended C1 at the concrete empty-messages input. -/
theorem message_bounds_boundary_only_witness :
    contextCreateValid inputEmptyMessages = false
      ∧ (create_context constClockEnvFail st0
          inputEmptyMessages).state.store.contexts.length
          = st0.store.contexts.length + 1 :=
  message_bounds_boundary_only constClockEnvFail st0 inputEmptyMessages
    (Or.inl rfl)

/-- C3 counterexample: with a clock that advances between successive utcnow
calls, expires_at differs from created_at plus the retention period,
because the expires_at column default reads the clock afresh instead of
reusing the created_at value. -/
theorem expires_at_drift_cex :
    (create_context tickClockEnvFail st0 inputPlain).ctx.expires_at
      ≠ (create_context tickClockEnvFail st0 inputPlain).ctx.created_at
          + retentionDelta := by decide

/-- C3 amended: expires_at is assigned once, at creation, as the clock
reading of its own column default plus the configured retention period
(default 30 days); since created_at comes from a separate utcnow call,
equality with created_at plus the retention period holds whenever the clock
readings during creation coincide; and no later operation mutates a stored
context: every workflow operation either keeps the contexts table a sublist
of verbatim-unchanged rows or appends one newly created row. -/
theorem expires_at_fixed_at_creation (env : Env) (st : SysState)
    (input : ContextCreate) (st2 : SysState) (op : WorkflowOp)
    (hclock : ∀ i j : Nat, env.clock i = env.clock j) :
    (create_context env st input).ctx.expires_at
        = (create_context env st input).ctx.created_at + retentionDelta
      ∧ ((applyOp st2 op).store.contexts.Sublist st2.store.contexts
          ∨ ∃ c : StoredContext,
              (applyOp st2 op).store.contexts = st2.store.contexts ++ [c]) := by
  constructor
  · rw [create_ctx_expires_at, create_ctx_created_at,
      hclock (st.tick + aiTicksUsed env input + 2) (st.tick + aiTicksUsed env input)]
  · cases op with
    | createOp env3 input3 =>
        exact Or.inr ⟨(create_context env3 st2 input3).ctx,
          create_state_contexts env3 st2 input3⟩
    | getOp cid => exact Or.inl (List.Sublist.refl _)
    | listOp p l o => exact Or.inl (List.Sublist.refl _)
    | deleteOp cid => exact Or.inl (List.filter_sublist _)
    | cleanupOp now => exact Or.inl (List.filter_sublist _)

/-- Witness for the amended C3 with a constant clock and a read-only
subsequent operation. -/
theorem expires_at_fixed_at_creation_witness :
    (create_context constClockEnvFail st0 inputPlain).ctx.expires_at
        = (create_context constClockEnvFail st0 inputPlain).ctx.created_at
            + retentionDelta
      ∧ ((applyOp st0 (WorkflowOp.getOp 0)).store.contexts.Sublist
            st0.store.contexts
          ∨ ∃ c : StoredContext,
              (applyOp st0 (WorkflowOp.getOp 0)).store.contexts
                = st0.store.contexts ++ [c]) :=
  expires_at_fixed_at_creation constClockEnvFail st0 inputPlain st0
    (WorkflowOp.getOp 0) (fun _ _ => rfl)

/-- C7: in a listing response has_more is true exactly when offset plus
limit is less than the total count of matching rows, and a request whose
offset is at least the total yields an empty context list with has_more
false. -/
theorem pagination_has_more (store : Store) (platform : Option String)
    (limit offset : Nat) (h1 : 1 ≤ limit) (h2 : limit ≤ 100) :
    ((list_contexts_route store platform limit offset).has_more = true
        ↔ offset + limit
            < (list_contexts_route store platform limit offset).total)
      ∧ ((list_contexts_route store platform limit offset).total ≤ offset →
          (list_contexts_route store platform limit offset).contexts = []
            ∧ (list_contexts_route store platform limit offset).has_more
                = false) := by
  constructor
  · simp [list_contexts_route]
  · intro hle
    have hle2 : (matchingContexts store platform).length ≤ offset := hle
    constructor
    · show ((List.insertionSort createdDesc
          (matchingContexts store platform)).drop offset).take limit = []
      have hlen : (List.insertionSort createdDesc
          (matchingContexts store platform)).length ≤ offset := by
        rw [(List.perm_insertionSort createdDesc
          (matchingContexts store platform)).length_eq]
        exact hle2
      rw [List.drop_eq_nil_of_le hlen, List.take_nil]
    · show decide (offset + limit < (matchingContexts store platform).length)
          = false
      exact decide_eq_false (by omega)

/-- Witness for C7 at a concrete two-row store with the offset past the
total. -/
theorem pagination_has_more_witness :
    ((list_contexts_route storeAB none 20 5).has_more = true
        ↔ 5 + 20 < (list_contexts_route storeAB none 20 5).total)
      ∧ ((list_contexts_route storeAB none 20 5).contexts = []
          ∧ (list_contexts_route storeAB none 20 5).has_more = false) :=
  ⟨(pagination_has_more storeAB none 20 5 (by decide) (by decide)).1,
   (pagination_has_more storeAB none 20 5 (by decide) (by decide)).2
     (by decide)⟩

/-- C9: deleting an id with no stored context returns false and leaves the
contexts table unchanged, so every repeat returns false as well; deleting an
existing id returns true; and deleting the same id again immediately after
any delete returns false. -/
theorem delete_idempotent (store : Store) (cid : Nat) :
    ((∀ c ∈ store.contexts, c.id ≠ cid) →
        (delete_context store cid).2 = false
          ∧ (delete_context store cid).1.contexts = store.contexts)
      ∧ ((∃ c ∈ store.contexts, c.id = cid) →
          (delete_context store cid).2 = true)
      ∧ (delete_context (delete_context store cid).1 cid).2 = false := by
  refine ⟨?_, ?_, ?_⟩
  · intro h
    constructor
    · show decide (0 < store.contexts.countP fun c => c.id == cid) = false
      have hz : store.contexts.countP (fun c => c.id == cid) = 0 := by
        apply List.countP_eq_zero.mpr
        intro a ha
        simp [h a ha]
      simp [hz]
    · show store.contexts.filter (fun c => !(c.id == cid)) = store.contexts
      apply List.filter_eq_self.mpr
      intro a ha
      simp [h a ha]
  · rintro ⟨c, hc, hcid⟩
    show decide (0 < store.contexts.countP fun c => c.id == cid) = true
    have hpos : 0 < store.contexts.countP (fun c => c.id == cid) :=
      List.countP_pos_iff.mpr ⟨c, hc, by simp [hcid]⟩
    simp [hpos]
  · show decide (0 < ((store.contexts.filter fun c => !(c.id == cid)).countP
        fun c => c.id == cid)) = false
    have hz : ((store.contexts.filter fun c => !(c.id == cid)).countP
        fun c => c.id == cid) = 0 := by
      apply List.countP_eq_zero.mpr
      intro a ha
      have h2 := (List.mem_filter.mp ha).2
      simp at h2 ⊢
      exact h2
    simp [hz]

/-- Witness for C9: the present-id case succeeds once then fails, and the
absent-id case fails with the table unchanged. -/
theorem delete_idempotent_witness :
    ((delete_context storeAB 1).2 = true
        ∧ (delete_context (delete_context storeAB 1).1 1).2 = false)
      ∧ ((delete_context storeAB 99).2 = false
          ∧ (delete_context storeAB 99).1.contexts = storeAB.contexts) :=
  ⟨⟨(delete_idempotent storeAB 1).2.1 ⟨ctxA, by decide, by decide⟩,
    (delete_idempotent storeAB 1).2.2⟩,
   (delete_idempotent storeAB 99).1 (by decide)⟩

/-- C8: the expiry sweep keeps a context exactly when its expires_at is not
strictly earlier than now, the returned count plus the surviving rows add up
to the original table size (so it returns the number deleted), retrieving a
swept-away id afterward returns absent, and the deletion cascades to the
messages table: no message of a swept-away context survives the sweep, while
a message whose owning context is not swept away is kept. -/
theorem expiry_sweep (store : Store) (now : Int) (c : StoredContext)
    (m : StoredMessage) (hids : (store.contexts.map fun x => x.id).Nodup) :
    (c ∈ (cleanup_expired_contexts store now).1.contexts
        ↔ c ∈ store.contexts ∧ ¬ (c.expires_at < now))
      ∧ (cleanup_expired_contexts store now).2
          + (cleanup_expired_contexts store now).1.contexts.length
          = store.contexts.length
      ∧ (c ∈ store.contexts → c.expires_at < now →
          get_context (cleanup_expired_contexts store now).1 c.id = none)
      ∧ (c ∈ store.contexts → c.expires_at < now →
          m ∈ (cleanup_expired_contexts store now).1.messages →
            m.context_id ≠ c.id)
      ∧ (m ∈ store.messages →
          (∀ x ∈ store.contexts, x.id = m.context_id →
            ¬ x.expires_at < now) →
          m ∈ (cleanup_expired_contexts store now).1.messages) := by
  refine ⟨?_, ?_, ?_, ?_, ?_⟩
  · show c ∈ store.contexts.filter (fun x => !(decide (x.expires_at < now))) ↔ _
    rw [List.mem_filter]
    simp
  · show (store.contexts.filter fun x => decide (x.expires_at < now)).length
        + (store.contexts.filter fun x => !(decide (x.expires_at < now))).length
        = store.contexts.length
    exact filter_length_split _ _
  · intro hc hexp
    have hfind : ((store.contexts.filter
        fun x => !(decide (x.expires_at < now))).find?
        fun x => x.id == c.id) = none := by
      apply List.find?_eq_none.mpr
      intro x hx
      have hxmem := (List.mem_filter.mp hx).1
      have hxkeep := (List.mem_filter.mp hx).2
      intro hbeq
      have hxid : x.id = c.id := by simpa using hbeq
      have hxc : x = c := List.inj_on_of_nodup_map hids hxmem hc hxid
      rw [hxc] at hxkeep
      simp [hexp] at hxkeep
    simp [get_context, cleanup_expired_contexts, hfind]
  · intro hc hexp hmem heq
    have hkeep := (List.mem_filter.mp hmem).2
    have hcexp : c ∈ store.contexts.filter fun x => decide (x.expires_at < now) :=
      List.mem_filter.mpr ⟨hc, by simp [hexp]⟩
    have hany : ((store.contexts.filter
        fun x => decide (x.expires_at < now)).any
        fun x => x.id == m.context_id) = true :=
      List.any_eq_true.mpr ⟨c, hcexp, by simp [heq]⟩
    simp [hany] at hkeep
  · intro hmmem hsafe
    show m ∈ store.messages.filter fun mm =>
      !((store.contexts.filter fun x => decide (x.expires_at < now)).any
        fun x => x.id == mm.context_id)
    refine List.mem_filter.mpr ⟨hmmem, ?_⟩
    simp only [Bool.not_eq_true']
    apply List.any_eq_false.mpr
    intro x hx
    have hxc := List.mem_filter.mp hx
    have hxexp : x.expires_at < now := by simpa using hxc.2
    intro hbeq
    have hxid : x.id = m.context_id := by simpa using hbeq
    exact hsafe x hxc.1 hxid hxexp

/-- Witness for C8 at a concrete store: the context expiring at time 10 is
swept at time 50, is afterward not retrievable, and its message is removed
by the cascade while the surviving context's message is kept. -/
theorem expiry_sweep_witness :
    (ctxA ∈ (cleanup_expired_contexts storeABM 50).1.contexts
        ↔ ctxA ∈ storeABM.contexts ∧ ¬ (ctxA.expires_at < 50))
      ∧ (cleanup_expired_contexts storeABM 50).2
          + (cleanup_expired_contexts storeABM 50).1.contexts.length
          = storeABM.contexts.length
      ∧ get_context (cleanup_expired_contexts storeABM 50).1 ctxA.id = none
      ∧ msgA ∉ (cleanup_expired_contexts storeABM 50).1.messages
      ∧ msgB ∈ (cleanup_expired_contexts storeABM 50).1.messages :=
  ⟨(expiry_sweep storeABM 50 ctxA msgA (by decide)).1,
   (expiry_sweep storeABM 50 ctxA msgA (by decide)).2.1,
   (expiry_sweep storeABM 50 ctxA msgA (by decide)).2.2.1 (by decide) (by decide),
   fun hmem =>
     absurd
       ((expiry_sweep storeABM 50 ctxA msgA (by decide)).2.2.2.1
         (by decide) (by decide) hmem)
       (by decide),
   (expiry_sweep storeABM 50 ctxB msgB (by decide)).2.2.2.2 (by decide)
     (by decide)⟩

/-- C6: retrieving a just-created context returns its messages exactly in
submission order, with sequence_order assigned 0 to N-1 from the input array
index and returned sorted ascending by sequence_order, independent of the
client-supplied message timestamps. -/
theorem round_trip_order (env : Env) (st : SysState) (input : ContextCreate)
    (hc : ∀ c ∈ st.store.contexts, c.id < st.nextId)
    (hm : ∀ m ∈ st.store.messages, m.context_id < st.nextId) :
    (get_context (create_context env st input).state.store
        (create_context env st input).ctx.id).map
        (fun p => p.2.map fun m => (m.role, m.content, m.message_timestamp))
      = some (input.messages.map fun m => (m.role, m.content, m.timestamp))
    ∧ (get_context (create_context env st input).state.store
        (create_context env st input).ctx.id).map
        (fun p => p.2.map fun m => m.sequence_order)
      = some (List.range input.messages.length) := by
  have hold : ∀ cc ∈ st.store.contexts, (cc.id == st.nextId) = false := by
    intro cc hcc
    simp [Nat.ne_of_lt (hc cc hcc)]
  have hfind : ((create_context env st input).state.store.contexts.find?
      fun c => c.id == (create_context env st input).ctx.id)
      = some (create_context env st input).ctx := by
    rw [create_state_contexts, create_ctx_id, find?_append_eq hold,
      List.find?_cons_of_pos _ (by simp [create_ctx_id])]
  have hfilter : ((create_context env st input).state.store.messages.filter
      fun m => m.context_id == (create_context env st input).ctx.id)
      = (create_context env st input).msgs := by
    rw [create_state_messages, create_ctx_id, List.filter_append]
    have h1 : (st.store.messages.filter fun m => m.context_id == st.nextId)
        = [] := by
      apply List.filter_eq_nil_iff.mpr
      intro m hmem
      simp [Nat.ne_of_lt (hm m hmem)]
    have h2 : ((create_context env st input).msgs.filter
        fun m => m.context_id == st.nextId)
        = (create_context env st input).msgs := by
      apply List.filter_eq_self.mpr
      intro m hmem
      rw [create_msgs_def] at hmem
      simp [mkStoredMessages_cid env st.nextId input.messages
        (st.nextId + 1) (st.tick + aiTicksUsed env input + 3) 0 m hmem]
    rw [h1, h2, List.nil_append]
  have hsort : sortBySeq (create_context env st input).msgs
      = (create_context env st input).msgs := by
    rw [create_msgs_def]
    exact sortBySeq_eq_of_pairwise
      (mkStoredMessages_pairwise env st.nextId input.messages
        (st.nextId + 1) (st.tick + aiTicksUsed env input + 3) 0)
  constructor
  · simp only [get_context, hfind, hfilter, hsort, Option.map_some']
    rw [create_msgs_def, mkStoredMessages_view]
  · simp only [get_context, hfind, hfilter, hsort, Option.map_some']
    rw [create_msgs_def, mkStoredMessages_seq, List.range_eq_range']

/-- Witness for C6 at a concrete two-message input whose timestamps are in
reverse chronological order. -/
theorem round_trip_order_witness :
    (get_context (create_context constClockEnvFail st0 inputPlain).state.store
        (create_context constClockEnvFail st0 inputPlain).ctx.id).map
        (fun p => p.2.map fun m => (m.role, m.content, m.message_timestamp))
      = some (inputPlain.messages.map fun m => (m.role, m.content, m.timestamp))
    ∧ (get_context (create_context constClockEnvFail st0 inputPlain).state.store
        (create_context constClockEnvFail st0 inputPlain).ctx.id).map
        (fun p => p.2.map fun m => m.sequence_order)
      = some (List.range inputPlain.messages.length) :=
  round_trip_order constClockEnvFail st0 inputPlain
    (by intro c hcm; simp [st0] at hcm)
    (by intro m hmm; simp [st0] at hmm)

end AIContextBridge
